import Mathlib

/-!
# Verification of the FSx-for-Windows configuration builders

Shallow embedding of the validation / normalization layer of the FSx for
Windows file-system construct library:

* `backup-start-time.ts` — the `BackupStartTime` value object;
* the maintenance-time value object (modelled from the spec, see below);
* `audit-log-configuration.ts`, `self-managed-AD-configuration.ts` — plain
  configuration records;
* the current `WindowsFileSystem` builder (source file `part_000`) with its
  eleven field validators, fail-fast `validateProps`, constructor effects and
  the adopt-existing entry point;
* the previous revision of the builder
  (`packages/@aws-cdk/aws-fsx/lib/windows-file-system.ts`) with its
  storage-capacity validator.

JavaScript numbers are modelled as exact rationals (`ℚ`); `Number.isInteger q`
becomes `q.den = 1`.  JavaScript string truthiness (an optional string guard
`if (x && ...)`) is modelled by `jsTruthy`.  Constructor side effects
(security-group allocation, ingress rules, L1 resource creation) are modelled
as an explicit effect list, in source order.
-/

namespace AwsFsx

/-- Stub for the external `ISecurityGroup` collaborator: only its identity is
relevant to this layer. -/
structure ISecurityGroup where
  securityGroupId : String
deriving DecidableEq

/-- Stub for the external `ISubnet` collaborator. -/
structure ISubnet where
  subnetId : String
deriving DecidableEq

/-- Stub for the external `IVpc` collaborator. -/
structure Vpc where
  vpcId : String
deriving DecidableEq

/-- Stub for the external `IKey` (KMS key) collaborator. -/
structure KmsKey where
  keyId : String
deriving DecidableEq

/-- Stub for the `Port` factory of the networking library; only
`Port.tcpRange` is used by this code. -/
inductive Port where
  | tcpRange (fromPort toPort : ℕ)
deriving DecidableEq

/-- Stub for the `Connections` wrapper of the networking library: the
security groups it wraps and its default port, as passed by this code. -/
structure Connections where
  securityGroups : List ISecurityGroup
  defaultPort : Port
deriving DecidableEq

/-- JavaScript truthiness of an optional string: `undefined` and the empty
string are falsy, every other string is truthy.  Models the `if (x && ...)`
guards of the optional field validators. -/
def jsTruthy : Option String → Bool
  | none => false
  | some s => !(s == "")

/-- Repeated-halving check that `n` is a power of two, with explicit fuel so
that the recursion is structural. -/
def isPow2Fuel : ℕ → ℕ → Bool
  | _, 0 => false
  | _, 1 => true
  | 0, _ + 2 => false
  | fuel + 1, n + 2 => (n + 2) % 2 == 0 && isPow2Fuel fuel ((n + 2) / 2)

/-- `n` is a power of two (`n = 2 ^ k` for some `k`). -/
def isPow2Nat (n : ℕ) : Bool := isPow2Fuel n n

theorem isPow2Fuel_iff (fuel : ℕ) : ∀ n, n ≤ fuel + 1 →
    (isPow2Fuel fuel n = true ↔ ∃ k, n = 2 ^ k) := by
  induction fuel with
  | zero =>
    intro n hn
    match n, hn with
    | 0, _ =>
      refine ⟨fun h => absurd h (by simp [isPow2Fuel]), ?_⟩
      rintro ⟨k, hk⟩
      have : 0 < 2 ^ k := pow_pos (by omega) k
      omega
    | 1, _ => exact ⟨fun _ => ⟨0, rfl⟩, fun _ => rfl⟩
  | succ f ih =>
    intro n hn
    match n with
    | 0 =>
      refine ⟨fun h => absurd h (by simp [isPow2Fuel]), ?_⟩
      rintro ⟨k, hk⟩
      have : 0 < 2 ^ k := pow_pos (by omega) k
      omega
    | 1 => exact ⟨fun _ => ⟨0, rfl⟩, fun _ => rfl⟩
    | (m + 2) =>
      have hhalf : (m + 2) / 2 ≤ f + 1 := by omega
      rw [show isPow2Fuel (f + 1) (m + 2)
            = ((m + 2) % 2 == 0 && isPow2Fuel f ((m + 2) / 2)) from rfl]
      simp only [Bool.and_eq_true, beq_iff_eq]
      constructor
      · rintro ⟨heven, hrec⟩
        obtain ⟨k, hk⟩ := (ih ((m + 2) / 2) hhalf).mp hrec
        exact ⟨k + 1, by rw [pow_succ]; omega⟩
      · rintro ⟨k, hk⟩
        match k with
        | 0 => omega
        | j + 1 =>
          have h2 : (m + 2) = 2 * 2 ^ j := by rw [hk]; ring
          have hdiv : (m + 2) / 2 = 2 ^ j := by omega
          exact ⟨by omega, (ih ((m + 2) / 2) hhalf).mpr ⟨j, hdiv⟩⟩

theorem isPow2Nat_iff (n : ℕ) : isPow2Nat n = true ↔ ∃ k, n = 2 ^ k :=
  isPow2Fuel_iff n n (by omega)

/-- Models the test `Math.log2(v) % 1 === 0` on an exact rational: the base-2
logarithm of `v` is an integer exactly when `v` is an integral power of two
(`2 ^ k` with `k : ℤ`, so either a positive power-of-two integer or the
reciprocal of one). -/
def log2IsIntegral (q : ℚ) : Bool :=
  (q.den == 1 && decide (0 < q.num) && isPow2Nat q.num.toNat)
    || (q.num == 1 && isPow2Nat q.den)

/-- `backup-start-time.ts`: the raw constructor properties of
`BackupStartTime` (JavaScript numbers, modelled as exact rationals). -/
structure BackupStartTimeProps where
  hour : ℚ
  minute : ℚ
deriving DecidableEq

/-- `backup-start-time.ts`: the constructed `BackupStartTime` object; the
class stores the already-padded hour and minute strings. -/
structure BackupStartTime where
  hour : String
  minute : String
deriving DecidableEq

/-- `backup-start-time.ts` `getTwoDigitString`: pad an integer to at least two
digits.  The source comment assumes the number is a positive integer, which
`validate` has established, so the number-to-string conversion is the decimal
numeral of the natural number. -/
def getTwoDigitString (n : ℕ) : String :=
  let numberString := toString n
  if numberString.length = 1 then "0" ++ numberString else numberString

/-- `backup-start-time.ts` `validate`: hour must be an integer in `[0, 24]`,
minute an integer in `[0, 59]`; the hour check runs first. -/
def BackupStartTime.validate (hour minute : ℚ) : Except String Unit :=
  if !(hour.den == 1) || decide (hour < 0) || decide (hour > 24) then
    .error "Maintenance time hour must be an integer between 0 and 24"
  else if !(minute.den == 1) || decide (minute < 0) || decide (minute > 59) then
    .error "Maintenance time minute must be an integer between 0 and 59"
  else
    .ok ()

/-- `backup-start-time.ts` constructor: validate, then store the two padded
strings.  Throwing is modelled by `Except.error`.  After validation the hour
and minute are nonnegative integers, so `Rat.num.toNat` is their exact
value. -/
def BackupStartTime.mk? (props : BackupStartTimeProps) : Except String BackupStartTime :=
  match BackupStartTime.validate props.hour props.minute with
  | .error e => .error e
  | .ok () =>
    .ok { hour := getTwoDigitString props.hour.num.toNat
          minute := getTwoDigitString props.minute.num.toNat }

/-- `backup-start-time.ts` `toTimestamp`. -/
def BackupStartTime.toTimestamp (b : BackupStartTime) : String :=
  b.hour ++ ":" ++ b.minute

/-- Modelled from the spec: the weekday enumeration of the maintenance-time
value object (`windows-maintenance-time.ts` / `lustre-maintenance-time.ts` is
not among the provided sources; only its test file is).  Source enum order
starts at Monday (§3). -/
inductive Weekday where
  | MONDAY
  | TUESDAY
  | WEDNESDAY
  | THURSDAY
  | FRIDAY
  | SATURDAY
  | SUNDAY
deriving DecidableEq

/-- Modelled from the spec: the 1-based weekday index with the fixed mapping
Monday = 1 … Sunday = 7 (§3). -/
def Weekday.index : Weekday → ℕ
  | .MONDAY => 1
  | .TUESDAY => 2
  | .WEDNESDAY => 3
  | .THURSDAY => 4
  | .FRIDAY => 5
  | .SATURDAY => 6
  | .SUNDAY => 7

/-- Modelled from the spec: the string value carried by each weekday
enumerator, the unpadded decimal of its 1-based index. -/
def Weekday.dayValue : Weekday → String
  | .MONDAY => "1"
  | .TUESDAY => "2"
  | .WEDNESDAY => "3"
  | .THURSDAY => "4"
  | .FRIDAY => "5"
  | .SATURDAY => "6"
  | .SUNDAY => "7"

/-- Modelled from the spec: the constructor properties of the maintenance-time
value object — a weekday plus the raw hour and minute numbers (§3, §4.1). -/
structure LustreMaintenanceTimeProps where
  day : Weekday
  hour : ℚ
  minute : ℚ

/-- Modelled from the spec: the maintenance-time value object; like the
backup variant it stores the day value and the two padded strings (§4.1
describes the two variants as sharing the hour/minute validation with two
formatting paths). -/
structure LustreMaintenanceTime where
  day : Weekday
  hour : String
  minute : String
deriving DecidableEq

/-- Modelled from the spec: the maintenance-time constructor — the shared
hour/minute validation of §4.1 (identical to `BackupStartTime.validate`, as
pinned by the repository's maintenance-time tests), then the two padded
strings are stored. -/
def LustreMaintenanceTime.mk? (props : LustreMaintenanceTimeProps) :
    Except String LustreMaintenanceTime :=
  match BackupStartTime.validate props.hour props.minute with
  | .error e => .error e
  | .ok () =>
    .ok { day := props.day
          hour := getTwoDigitString props.hour.num.toNat
          minute := getTwoDigitString props.minute.num.toNat }

/-- Modelled from the spec: `toTimestamp` of the maintenance-time value
object, producing the canonical `"D:HH:MM"` string (§3). -/
def LustreMaintenanceTime.toTimestamp (t : LustreMaintenanceTime) : String :=
  t.day.dayValue ++ ":" ++ t.hour ++ ":" ++ t.minute

/-- The current builder source imports the same value object under the name
`WindowsMaintenanceTime`. -/
abbrev WindowsMaintenanceTime := LustreMaintenanceTime

/-- `audit-log-configuration.ts`: file-access audit log level. -/
inductive FileAccessAuditLogLevel where
  | DISABLED
  | SUCCESS_ONLY
  | FAILURE_ONLY
  | SUCCESS_AND_FAILURE
deriving DecidableEq

/-- `audit-log-configuration.ts`: file-share-access audit log level. -/
inductive FileShareAccessAuditLogLevel where
  | DISABLED
  | SUCCESS_ONLY
  | FAILURE_ONLY
  | SUCCESS_AND_FAILURE
deriving DecidableEq

/-- `audit-log-configuration.ts`: the audit log configuration record. -/
structure AuditLogConfiguration where
  auditLogDestination : Option String
  fileAccessAuditLogLevel : FileAccessAuditLogLevel
  fileShareAccessAuditLogLevel : FileShareAccessAuditLogLevel
deriving DecidableEq

/-- `self-managed-AD-configuration.ts`: the self-managed Active Directory
configuration record. -/
structure SelfManagedActiveDirectoryConfiguration where
  dnsIps : Option (List String)
  domainName : Option String
  fileSystemAdministratorsGroup : Option String
  organizationalUnitDistinguishedName : Option String
  password : Option String
  username : Option String
deriving DecidableEq

/-- `part_000`: the deployment kinds used by Windows. -/
inductive WindowsDeploymentType where
  | MULTI_AZ_1
  | SINGLE_AZ_1
  | SINGLE_AZ_2
deriving DecidableEq

/-- `part_000`: the storage types used by Windows. -/
inductive WindowsStorageType where
  | SSD
  | HDD
deriving DecidableEq

/-- `part_000`: the `WindowsConfiguration` record of the current builder
revision. -/
structure WindowsConfiguration where
  deploymentType : WindowsDeploymentType
  activeDirectoryId : Option String
  aliases : Option (List String)
  auditLogConfiguration : Option AuditLogConfiguration
  automaticBackupRetentionDays : Option ℚ
  copyTagsToBackups : Option Bool
  dailyAutomaticBackupStartTime : Option BackupStartTime
  preferredSubnetId : Option String
  selfManagedActiveDirectoryConfiguration : Option SelfManagedActiveDirectoryConfiguration
  storageType : Option WindowsStorageType
  throughputCapacity : ℚ
  weeklyMaintenanceStartTime : Option WindowsMaintenanceTime

/-- `part_000` (`FileSystemProps` base record of `file-system.ts`, modelled
from its uses in the builder): deployment context plus the Windows
configuration and the accessibility subnet. -/
structure WindowsFileSystemProps where
  windowsConfiguration : WindowsConfiguration
  vpcSubnet : ISubnet
  vpc : Vpc
  securityGroup : Option ISecurityGroup
  backupId : Option String
  kmsKey : Option KmsKey
  storageCapacityGiB : ℚ
  removalPolicy : Option String

/-- `file-system.ts` `FileSystemAttributes` (modelled from its uses in the
adopt-existing entry point and §6 of the spec): the caller-supplied endpoint
name, resource id and security boundary. -/
structure FileSystemAttributes where
  dnsName : String
  fileSystemId : String
  securityGroup : ISecurityGroup
deriving DecidableEq

namespace WindowsFileSystem

/-- `part_000`: test of the regex `^d-[0-9a-f]{10}$` — the literal `d-`
followed by exactly ten lowercase hex digits. -/
def activeDirectoryRegexTest (s : String) : Bool :=
  match s.data with
  | 'd' :: '-' :: rest =>
    rest.length == 10 &&
      rest.all fun c =>
        (decide ('0' ≤ c) && decide (c ≤ '9')) || (decide ('a' ≤ c) && decide (c ≤ 'f'))
  | _ => false

/-- The separator characters excluded by the negated character class
`[^\u0000\u0085\u2028\u2029\r\n]` used by the free-text validators. -/
def lineSeparatorChars : List Char :=
  ['\u0000', '\u0085', '\u2028', '\u2029', '\r', '\n']

/-- Test of a regex `^[^\u0000\u0085\u2028\u2029\r\n]{1,maxLen}$`: length
between 1 and `maxLen`, no character from the excluded class. -/
def noLineSepRegexTest (maxLen : ℕ) (s : String) : Bool :=
  (decide (1 ≤ s.length) && decide (s.length ≤ maxLen)) &&
    s.data.all fun c => !(lineSeparatorChars.contains c)

/-- The line-terminator characters that the unflagged JavaScript `.` does not
match. -/
def dotExcludedChars : List Char := ['\n', '\r', '\u2028', '\u2029']

/-- Test of the regex `^.{1,maxLen}$`: length between 1 and `maxLen`, no
line-terminator character (JavaScript `.` without the `s` flag). -/
def dotRegexTest (maxLen : ℕ) (s : String) : Bool :=
  (decide (1 ≤ s.length) && decide (s.length ≤ maxLen)) &&
    s.data.all fun c => !(dotExcludedChars.contains c)

/-- Split a character list on `':'` (the colon-separated fields of an ARN
candidate). -/
def splitOnColon : List Char → List (List Char)
  | [] => [[]]
  | c :: rest =>
    let r := splitOnColon rest
    if c = ':' then [] :: r
    else
      match r with
      | [] => [[c]]
      | f :: fs => (c :: f) :: fs

/-- `part_000` `validateARN`: test of the regex built from the plain string
literal `'^arn:[^:]{1,63}:[^:]{0,63}:[^:]{0,63}:(?:|\d{12}):[^/].{0,1023}$'`.
In a JavaScript string literal the escape `\d` denotes the plain character
`d`, so the compiled regex's account alternative is the twelve-character
literal `dddddddddddd`, not twelve digits.  Because the first four segments
are matched by `[^:]` classes (which cannot cross a `':'`) each is forced to
one colon-separated field, so the regex matches exactly when: the string
starts with `arn:`; the next three fields have lengths 1–63, 0–63 and 0–63;
the account field is empty or twelve literal `d`s; and the remainder (which
may contain further colons) is 1–1024 characters, does not start with `/`,
and — because `.` does not match line terminators — has none of `\n`, `\r`,
U+2028, U+2029 after its first character (the first character is matched by
the negated class `[^/]`, which does match line terminators). -/
def regexARNTest (s : String) : Bool :=
  match splitOnColon s.data with
  | arn :: p1 :: p2 :: p3 :: acct :: r1 :: rs =>
    arn == "arn".data &&
    (decide (1 ≤ p1.length) && decide (p1.length ≤ 63)) &&
    decide (p2.length ≤ 63) &&
    decide (p3.length ≤ 63) &&
    (acct == ([] : List Char) || acct == List.replicate 12 'd') &&
    (match List.intercalate [':'] (r1 :: rs) with
     | [] => false
     | c :: cs =>
       !(c == '/') && decide (cs.length ≤ 1023) &&
         cs.all fun ch => !(dotExcludedChars.contains ch))
  | _ => false

/-- `part_000` `validateActiveDirectoryId`. -/
def validateActiveDirectoryId (activeDirectoryId : Option String) : Except String Unit :=
  if jsTruthy activeDirectoryId &&
      !(activeDirectoryRegexTest (activeDirectoryId.getD "")) then
    .error "Active Directory ID must begin with the literal d- and should be followed by exactly 10 alphanumeric characters. Allowed alphanumeric values include 0-9 and a-f."
  else .ok ()

/-- `part_000` `validateThroughputCapacity`: rejects unless the value is
between 8 and 4096 with an integral base-2 logarithm. -/
def validateThroughputCapacity (throughputCapacity : ℚ) : Except String Unit :=
  if (decide (throughputCapacity < 8) || decide (throughputCapacity > 4096))
      || !(log2IsIntegral throughputCapacity) then
    .error "Throughput Capacity must be between 8 and 4096 GiB and a power of 2"
  else .ok ()

/-- `part_000` `validateAliases`: at most 50 DNS alias names.  (A JavaScript
array, even an empty one, is always truthy, so the guard only skips an absent
list.) -/
def validateAliases (aliases : Option (List String)) : Except String Unit :=
  match aliases with
  | none => .ok ()
  | some l => if decide (l.length > 50) then .error "List must not exceed 50 DNS alias names." else .ok ()

/-- `part_000` `validatePreferredSubnetId`: the preferred subnet id is
required exactly under the MULTI_AZ_1 deployment type. -/
def validatePreferredSubnetId (deploymentType : WindowsDeploymentType)
    (preferredSubnetId : Option String) : Except String Unit :=
  if deploymentType = .MULTI_AZ_1 ∧ preferredSubnetId = none then
    .error "Preferred Subnet ID is required when deploymentType is set to MULTI_AZ_1"
  else .ok ()

/-- `part_000` `validateDnsIps`: at most 3 DNS IPs. -/
def validateDnsIps (dnsIps : Option (List String)) : Except String Unit :=
  match dnsIps with
  | none => .ok ()
  | some l => if decide (l.length > 3) then .error "List must not exceed 3 DNS IPs." else .ok ()

/-- `part_000` `validateDomainName`. -/
def validateDomainName (domainName : Option String) : Except String Unit :=
  if jsTruthy domainName && !(noLineSepRegexTest 255 (domainName.getD "")) then
    .error "Value must be a valid Domain Name. It must not contain newline, carriage return, line separator or paragraph separator and must not exceed 255 characters limit."
  else .ok ()

/-- `part_000` `validateFileSystemAdministratorsGroup`. -/
def validateFileSystemAdministratorsGroup (fileSystemAdministratorsGroup : Option String) :
    Except String Unit :=
  if jsTruthy fileSystemAdministratorsGroup &&
      !(noLineSepRegexTest 256 (fileSystemAdministratorsGroup.getD "")) then
    .error "Value must be a valid Domain Group. It must not contain newline, carriage return, line separator or paragraph separator and must not exceed 256 characters limit."
  else .ok ()

/-- `part_000` `validateOrganizationalUnitDistinguishedName`. -/
def validateOrganizationalUnitDistinguishedName
    (organizationalUnitDistinguishedName : Option String) : Except String Unit :=
  if jsTruthy organizationalUnitDistinguishedName &&
      !(noLineSepRegexTest 2000 (organizationalUnitDistinguishedName.getD "")) then
    .error "Value must be a valid fully qualified distinguished name of the organizational unit. It must not contain newline, carriage return, line separator or paragraph separator and must not exceed 2000 characters limit."
  else .ok ()

/-- `part_000` `validatePassword` (regex `^.{1,256}$`). -/
def validatePassword (password : Option String) : Except String Unit :=
  if jsTruthy password && !(dotRegexTest 256 (password.getD "")) then
    .error "Password must not exceed 256 characters limit."
  else .ok ()

/-- `part_000` `validateUsername`. -/
def validateUsername (username : Option String) : Except String Unit :=
  if jsTruthy username && !(noLineSepRegexTest 256 (username.getD "")) then
    .error "Username must not contain newline, carriage return, line separator or paragraph separator and must not exceed 256 characters limit."
  else .ok ()

/-- `part_000` `validateARN`. -/
def validateARN (auditLogDestination : Option String) : Except String Unit :=
  if jsTruthy auditLogDestination && !(regexARNTest (auditLogDestination.getD "")) then
    .error "Audit Log Destination must be a valid ARN"
  else .ok ()

/-- `part_000` `validateProps`: the eleven validators of the current builder
revision, run in source order; the first failure aborts. -/
def validateProps (props : WindowsFileSystemProps) : Except String Unit := do
  let windowsConfiguration := props.windowsConfiguration
  validateActiveDirectoryId windowsConfiguration.activeDirectoryId
  validateThroughputCapacity windowsConfiguration.throughputCapacity
  validateAliases windowsConfiguration.aliases
  validatePreferredSubnetId windowsConfiguration.deploymentType windowsConfiguration.preferredSubnetId
  validateDnsIps (windowsConfiguration.selfManagedActiveDirectoryConfiguration.bind (·.dnsIps))
  validateDomainName (windowsConfiguration.selfManagedActiveDirectoryConfiguration.bind (·.domainName))
  validateFileSystemAdministratorsGroup
    (windowsConfiguration.selfManagedActiveDirectoryConfiguration.bind (·.fileSystemAdministratorsGroup))
  validateOrganizationalUnitDistinguishedName
    (windowsConfiguration.selfManagedActiveDirectoryConfiguration.bind (·.organizationalUnitDistinguishedName))
  validatePassword (windowsConfiguration.selfManagedActiveDirectoryConfiguration.bind (·.password))
  validateUsername (windowsConfiguration.selfManagedActiveDirectoryConfiguration.bind (·.username))
  validateARN (windowsConfiguration.auditLogConfiguration.bind (·.auditLogDestination))

/-- `part_000` `DEFAULT_PORT_RANGE`. -/
def DEFAULT_PORT_RANGE : ℕ × ℕ := (988, 1023)

/-- `part_000` `configureConnections`: wrap a security group in a
`Connections` object with the fixed FSx-for-Windows TCP port range. -/
def configureConnections (securityGroup : ISecurityGroup) : Connections :=
  { securityGroups := [securityGroup]
    defaultPort := Port.tcpRange DEFAULT_PORT_RANGE.1 DEFAULT_PORT_RANGE.2 }

/-- The `WindowsConfiguration` after the `Object.assign` merge in the
constructor: the two time-spec fields are replaced by their canonical
timestamp strings, everything else is copied verbatim. -/
structure NormalizedWindowsConfiguration where
  deploymentType : WindowsDeploymentType
  activeDirectoryId : Option String
  aliases : Option (List String)
  auditLogConfiguration : Option AuditLogConfiguration
  automaticBackupRetentionDays : Option ℚ
  copyTagsToBackups : Option Bool
  dailyAutomaticBackupStartTime : Option String
  preferredSubnetId : Option String
  selfManagedActiveDirectoryConfiguration : Option SelfManagedActiveDirectoryConfiguration
  storageType : Option WindowsStorageType
  throughputCapacity : ℚ
  weeklyMaintenanceStartTime : Option String

/-- The property tree handed to the external provisioning engine
(`CfnFileSystem` constructor arguments in `part_000`). -/
structure CfnFileSystemProps where
  fileSystemType : String
  subnetIds : List String
  backupId : Option String
  kmsKeyId : Option String
  windowsConfiguration : NormalizedWindowsConfiguration
  securityGroupIds : List String
  storageCapacity : ℚ

/-- The observable side effects of the constructor, in source order: creating
a fresh security group, adding the self-referential ingress rule, and
creating the L1 `CfnFileSystem` resource. -/
inductive Effect where
  | createSecurityGroup (vpcId : String)
  | addIngressRule (securityGroup : ISecurityGroup) (port : Port)
  | createCfnFileSystem (props : CfnFileSystemProps)

/-- The constructed `WindowsFileSystem` visible state. -/
structure ConstructedFileSystem where
  connections : Connections
  dnsName : String
  fileSystemId : String

/-- Placeholder for the engine-assigned resource reference (`this.fileSystem.ref`). -/
def refToken : String := "TOKEN.Resource.Ref"

/-- Placeholder for the stack region read from the construct scope. -/
def regionToken : String := "TOKEN.AWS.Region"

/-- Placeholder for `Aws.URL_SUFFIX`. -/
def urlSuffixToken : String := "TOKEN.AWS.URLSuffix"

/-- `part_000` constructor of `WindowsFileSystem`, with its side effects made
explicit: run `validateProps` (a thrown validation error aborts construction
before any effect), normalize the two time-spec fields, resolve or create the
security group, add the self-referential ingress rule on ports 988–1023,
create the L1 resource, and derive the identifier and DNS name. -/
def construct (props : WindowsFileSystemProps) :
    List Effect × Except String ConstructedFileSystem :=
  match validateProps props with
  | .error e => ([], .error e)
  | .ok () =>
    let windowsConfiguration : NormalizedWindowsConfiguration :=
      { deploymentType := props.windowsConfiguration.deploymentType
        activeDirectoryId := props.windowsConfiguration.activeDirectoryId
        aliases := props.windowsConfiguration.aliases
        auditLogConfiguration := props.windowsConfiguration.auditLogConfiguration
        automaticBackupRetentionDays := props.windowsConfiguration.automaticBackupRetentionDays
        copyTagsToBackups := props.windowsConfiguration.copyTagsToBackups
        dailyAutomaticBackupStartTime :=
          props.windowsConfiguration.dailyAutomaticBackupStartTime.map BackupStartTime.toTimestamp
        preferredSubnetId := props.windowsConfiguration.preferredSubnetId
        selfManagedActiveDirectoryConfiguration :=
          props.windowsConfiguration.selfManagedActiveDirectoryConfiguration
        storageType := props.windowsConfiguration.storageType
        throughputCapacity := props.windowsConfiguration.throughputCapacity
        weeklyMaintenanceStartTime :=
          props.windowsConfiguration.weeklyMaintenanceStartTime.map LustreMaintenanceTime.toTimestamp }
    let (sgEffects, securityGroup) :=
      match props.securityGroup with
      | some sg => (([] : List Effect), sg)
      | none => ([Effect.createSecurityGroup props.vpc.vpcId],
                 ({ securityGroupId := "TOKEN.FsxWindowsSecurityGroup.Id" } : ISecurityGroup))
    let cfnProps : CfnFileSystemProps :=
      { fileSystemType := "WINDOWS"
        subnetIds := [props.vpcSubnet.subnetId]
        backupId := props.backupId
        kmsKeyId := props.kmsKey.map (·.keyId)
        windowsConfiguration := windowsConfiguration
        securityGroupIds := [securityGroup.securityGroupId]
        storageCapacity := props.storageCapacityGiB }
    let effects := sgEffects ++
      [Effect.addIngressRule securityGroup (Port.tcpRange DEFAULT_PORT_RANGE.1 DEFAULT_PORT_RANGE.2),
       Effect.createCfnFileSystem cfnProps]
    (effects,
     .ok { connections := configureConnections securityGroup
           dnsName := refToken ++ ".fsx." ++ regionToken ++ "." ++ urlSuffixToken
           fileSystemId := refToken })

/-- `part_000` `fromWindowsFileSystemAttributes`: the adopt-existing entry
point — no validator runs and no effect occurs; the attributes are copied
verbatim and the supplied security group is wrapped. -/
def fromWindowsFileSystemAttributes (attrs : FileSystemAttributes) :
    List Effect × ConstructedFileSystem :=
  ([],
   { connections := configureConnections attrs.securityGroup
     dnsName := attrs.dnsName
     fileSystemId := attrs.fileSystemId })

end WindowsFileSystem

namespace WindowsFileSystemPrev

/-- `packages/@aws-cdk/aws-fsx/lib/windows-file-system.ts`
`validateThroughputCapacity` (previous builder revision; identical logic to
the current one, lowercase message). -/
def validateThroughputCapacity (throughputCapacity : ℚ) : Except String Unit :=
  if (decide (throughputCapacity < 8) || decide (throughputCapacity > 4096))
      || !(log2IsIntegral throughputCapacity) then
    .error "throughput capacity must be between 8 and 4096 GiB and a power of 2"
  else .ok ()

/-- `packages/@aws-cdk/aws-fsx/lib/windows-file-system.ts`
`validateStorageCapacity`: rejects exactly the values below 32 or above
65536; integrality is not checked. -/
def validateStorageCapacity (storageCapacity : ℚ) : Except String Unit :=
  if decide (storageCapacity < 32) || decide (storageCapacity > 65536) then
    .error "storageCapacity must be between 32 and 65536 GiB"
  else .ok ()

/-- `packages/@aws-cdk/aws-fsx/lib/windows-file-system.ts` `validateProps`
(previous builder revision): throughput first, then storage capacity. -/
def validateProps (throughputCapacity storageCapacityGiB : ℚ) : Except String Unit := do
  validateThroughputCapacity throughputCapacity
  validateStorageCapacity storageCapacityGiB

end WindowsFileSystemPrev

/-! ## Helper definitions and lemmas -/

/-- The numeric value of a string of decimal digits (specification-side
reading of a zero-padded numeral). -/
def decimalValue (s : String) : ℕ :=
  s.data.foldl (fun n c => n * 10 + (c.toNat - '0'.toNat)) 0

theorem getTwoDigitString_spec : ∀ n < 100,
    (getTwoDigitString n).length = 2 ∧ decimalValue (getTwoDigitString n) = n := by
  decide

/-- A concrete, fully valid property record: throughput 8 MB/s, storage 1200
GiB, single-zone deployment, and no optional sub-configuration. -/
def validSampleProps : WindowsFileSystemProps :=
  { windowsConfiguration :=
      { deploymentType := .SINGLE_AZ_1
        activeDirectoryId := none
        aliases := none
        auditLogConfiguration := none
        automaticBackupRetentionDays := none
        copyTagsToBackups := none
        dailyAutomaticBackupStartTime := none
        preferredSubnetId := none
        selfManagedActiveDirectoryConfiguration := none
        storageType := some .SSD
        throughputCapacity := 8
        weeklyMaintenanceStartTime := none }
    vpcSubnet := { subnetId := "subnet-1" }
    vpc := { vpcId := "vpc-1" }
    securityGroup := none
    backupId := none
    kmsKey := none
    storageCapacityGiB := 1200
    removalPolicy := none }

theorem construct_of_validateProps_error (props : WindowsFileSystemProps) (e : String)
    (h : WindowsFileSystem.validateProps props = .error e) :
    WindowsFileSystem.construct props = ([], .error e) := by
  unfold WindowsFileSystem.construct
  rw [h]

theorem natCast_num_toNat (n : ℕ) : ((n : ℚ)).num.toNat = n := by
  simp [Rat.num_natCast]

theorem validate_natCast_ok (h m : ℕ) (hh : h ≤ 24) (hm : m ≤ 59) :
    BackupStartTime.validate (h : ℚ) (m : ℚ) = .ok () := by
  have c1 : (!(((h : ℚ)).den == 1) || decide ((h : ℚ) < 0) || decide ((h : ℚ) > 24))
      = false := by
    simp only [Rat.den_natCast, beq_self_eq_true, Bool.not_true, Bool.false_or,
      Bool.or_eq_false_iff, decide_eq_false_iff_not, not_lt]
    exact ⟨by positivity, by exact_mod_cast hh⟩
  have c2 : (!(((m : ℚ)).den == 1) || decide ((m : ℚ) < 0) || decide ((m : ℚ) > 59))
      = false := by
    simp only [Rat.den_natCast, beq_self_eq_true, Bool.not_true, Bool.false_or,
      Bool.or_eq_false_iff, decide_eq_false_iff_not, not_lt]
    exact ⟨by positivity, by exact_mod_cast hm⟩
  unfold BackupStartTime.validate
  rw [c1, c2]
  simp

theorem mk?_natCast_ok (h m : ℕ) (hh : h ≤ 24) (hm : m ≤ 59) :
    BackupStartTime.mk? ⟨(h : ℚ), (m : ℚ)⟩
      = .ok ⟨getTwoDigitString h, getTwoDigitString m⟩ := by
  unfold BackupStartTime.mk?
  rw [show (⟨(h : ℚ), (m : ℚ)⟩ : BackupStartTimeProps).hour = (h : ℚ) from rfl,
    show (⟨(h : ℚ), (m : ℚ)⟩ : BackupStartTimeProps).minute = (m : ℚ) from rfl,
    validate_natCast_ok h m hh hm, natCast_num_toNat, natCast_num_toNat]

theorem maintenance_mk?_natCast_ok (d : Weekday) (h m : ℕ) (hh : h ≤ 24) (hm : m ≤ 59) :
    LustreMaintenanceTime.mk? ⟨d, (h : ℚ), (m : ℚ)⟩
      = .ok ⟨d, getTwoDigitString h, getTwoDigitString m⟩ := by
  unfold LustreMaintenanceTime.mk?
  rw [show (⟨d, (h : ℚ), (m : ℚ)⟩ : LustreMaintenanceTimeProps).hour = (h : ℚ) from rfl,
    show (⟨d, (h : ℚ), (m : ℚ)⟩ : LustreMaintenanceTimeProps).minute = (m : ℚ) from rfl,
    validate_natCast_ok h m hh hm, natCast_num_toNat, natCast_num_toNat]

theorem validate_hour_error (h m : ℚ) (hbad : ¬ h.den = 1 ∨ h < 0 ∨ 24 < h) :
    BackupStartTime.validate h m
      = .error "Maintenance time hour must be an integer between 0 and 24" := by
  have c1 : (!(h.den == 1) || decide (h < 0) || decide (h > 24)) = true := by
    rcases hbad with hb | hb | hb <;> simp [hb]
  unfold BackupStartTime.validate
  rw [c1]
  simp

theorem validate_minute_error (h m : ℚ) (hgood : h.den = 1 ∧ 0 ≤ h ∧ h ≤ 24)
    (hbad : ¬ m.den = 1 ∨ m < 0 ∨ 59 < m) :
    BackupStartTime.validate h m
      = .error "Maintenance time minute must be an integer between 0 and 59" := by
  have c1 : (!(h.den == 1) || decide (h < 0) || decide (h > 24)) = false := by
    simp only [Bool.or_eq_false_iff, decide_eq_false_iff_not, not_lt]
    exact ⟨⟨by simp [hgood.1], hgood.2.1⟩, hgood.2.2⟩
  have c2 : (!(m.den == 1) || decide (m < 0) || decide (m > 59)) = true := by
    rcases hbad with hb | hb | hb <;> simp [hb]
  unfold BackupStartTime.validate
  rw [c1, c2]
  simp

theorem validate_both_ok (h m : ℚ) (hgood : h.den = 1 ∧ 0 ≤ h ∧ h ≤ 24)
    (mgood : m.den = 1 ∧ 0 ≤ m ∧ m ≤ 59) :
    BackupStartTime.validate h m = .ok () := by
  have c1 : (!(h.den == 1) || decide (h < 0) || decide (h > 24)) = false := by
    simp only [Bool.or_eq_false_iff, decide_eq_false_iff_not, not_lt]
    exact ⟨⟨by simp [hgood.1], hgood.2.1⟩, hgood.2.2⟩
  have c2 : (!(m.den == 1) || decide (m < 0) || decide (m > 59)) = false := by
    simp only [Bool.or_eq_false_iff, decide_eq_false_iff_not, not_lt]
    exact ⟨⟨by simp [mgood.1], mgood.2.1⟩, mgood.2.2⟩
  unfold BackupStartTime.validate
  rw [c1, c2]
  simp

theorem mk?_eq_of_validate_error (props : BackupStartTimeProps) (e : String)
    (h : BackupStartTime.validate props.hour props.minute = .error e) :
    BackupStartTime.mk? props = .error e := by
  unfold BackupStartTime.mk?
  rw [h]

theorem mk?_eq_of_validate_ok (props : BackupStartTimeProps)
    (h : BackupStartTime.validate props.hour props.minute = .ok ()) :
    BackupStartTime.mk? props
      = .ok ⟨getTwoDigitString props.hour.num.toNat,
             getTwoDigitString props.minute.num.toNat⟩ := by
  unfold BackupStartTime.mk?
  rw [h]

/-! ## Claim theorems -/

/-- C2: evaluation of the audit-log-destination validator at a well-formed
ARN whose account segment is the 12-digit number 123456789012 — the code
rejects it, because the regex was built from the plain string literal
`'...(?:|\d{12})...'` in which the escape `\d` denotes a literal `d`; the
account alternative therefore requires twelve literal `d` characters.  An
empty account segment, and the (unintended) twelve-`d` account, are accepted;
a string missing the `arn:` prefix or with a resource segment starting with
`/` is rejected. -/
theorem validateARN_numeric_account_rejected :
    WindowsFileSystem.validateARN (some "arn:aws:s3:us-east-1:123456789012:bucket")
        = .error "Audit Log Destination must be a valid ARN"
      ∧ WindowsFileSystem.validateARN (some "arn:aws:s3:us-east-1::bucket") = .ok ()
      ∧ WindowsFileSystem.validateARN (some "arn:aws:s3:us-east-1:dddddddddddd:bucket") = .ok ()
      ∧ WindowsFileSystem.validateARN (some "aws:s3:us-east-1::bucket")
        = .error "Audit Log Destination must be a valid ARN"
      ∧ WindowsFileSystem.validateARN (some "arn:aws:s3:us-east-1::/bucket")
        = .error "Audit Log Destination must be a valid ARN" :=
  ⟨rfl, rfl, rfl, rfl, rfl⟩

/-- C7: the preferred-subnet validator raises its violation (whose message
names the preferred subnet) exactly when the deployment type is MULTI_AZ_1
and the preferred-subnet id is absent, and accepts in every other case. -/
theorem validatePreferredSubnetId_iff :
    ∀ (dt : WindowsDeploymentType) (ps : Option String),
      (WindowsFileSystem.validatePreferredSubnetId dt ps
          = .error "Preferred Subnet ID is required when deploymentType is set to MULTI_AZ_1"
        ↔ (dt = .MULTI_AZ_1 ∧ ps = none))
      ∧ (WindowsFileSystem.validatePreferredSubnetId dt ps = .ok ()
        ↔ ¬(dt = .MULTI_AZ_1 ∧ ps = none)) := by
  intro dt ps
  unfold WindowsFileSystem.validatePreferredSubnetId
  split
  · next hc => simp [hc]
  · next hc => simp [hc]

/-- C8 (amended): the domain-name validator accepts a present string exactly
when it is empty (the JavaScript truthiness guard skips it) or has length at
most 255 with none of the six separator characters; an absent domain name is
accepted. -/
theorem validateDomainName_accepts_iff :
    (WindowsFileSystem.validateDomainName none = .ok ())
      ∧ ∀ s : String,
          WindowsFileSystem.validateDomainName (some s) = .ok ()
            ↔ (s = "" ∨ (s.length ≤ 255 ∧
                ∀ c ∈ s.data, c ∉ WindowsFileSystem.lineSeparatorChars)) := by
  refine ⟨rfl, fun s => ?_⟩
  unfold WindowsFileSystem.validateDomainName
  by_cases hs : s = ""
  · subst hs
    simp [jsTruthy]
  · have hne : (s == "") = false := by simp [hs]
    have hlen : 1 ≤ s.length := by
      have hd : s.data ≠ [] := fun hnil => hs (String.ext (by simp [hnil]))
      exact List.length_pos.mpr hd
    have htest : WindowsFileSystem.noLineSepRegexTest 255 s = true
        ↔ (s.length ≤ 255 ∧ ∀ c ∈ s.data, c ∉ WindowsFileSystem.lineSeparatorChars) := by
      unfold WindowsFileSystem.noLineSepRegexTest
      simp [hlen]
    simp only [jsTruthy, Option.getD_some, hne, Bool.not_false, Bool.true_and]
    by_cases ht : WindowsFileSystem.noLineSepRegexTest 255 s = true
    · rw [ht]
      simpa using Or.inr (htest.mp ht)
    · rw [Bool.not_eq_true] at ht
      rw [ht]
      simp only [Bool.not_false, if_true, reduceCtorEq, false_iff]
      rintro (hr | hr)
      · exact hs hr
      · exact absurd (htest.mpr hr) (by rw [ht]; simp)

/-- C8 counterexample: the claim as stated requires the empty string (a
present string of length 0) to be rejected, but the validator accepts it —
the guard `if (domainName && ...)` treats the falsy empty string as
absent. -/
theorem validateDomainName_empty_counterexample :
    WindowsFileSystem.validateDomainName (some "") = .ok ()
      ∧ ("" : String).length = 0 :=
  ⟨rfl, rfl⟩

/-- C10: the adopt-existing entry point performs no side effect — in
particular it allocates no new security boundary — and the returned handle
carries the supplied DNS name and file-system id verbatim, with a connections
wrapper around exactly the supplied security group and the fixed 988–1023 TCP
port range. -/
theorem fromWindowsFileSystemAttributes_verbatim :
    ∀ attrs : FileSystemAttributes,
      (WindowsFileSystem.fromWindowsFileSystemAttributes attrs).1 = []
        ∧ (WindowsFileSystem.fromWindowsFileSystemAttributes attrs).2.dnsName = attrs.dnsName
        ∧ (WindowsFileSystem.fromWindowsFileSystemAttributes attrs).2.fileSystemId
            = attrs.fileSystemId
        ∧ (WindowsFileSystem.fromWindowsFileSystemAttributes attrs).2.connections
            = { securityGroups := [attrs.securityGroup]
                defaultPort := Port.tcpRange 988 1023 } :=
  fun _ => ⟨rfl, rfl, rfl, rfl⟩

/-- C9: whenever some validator fails, construction returns that validation
error and performs no side effect at all — no security group is created, no
ingress rule is added and no `CfnFileSystem` property tree is handed to the
provisioning engine; all validation precedes all resource assembly. -/
theorem construct_fail_fast_no_effects :
    ∀ (props : WindowsFileSystemProps) (e : String),
      WindowsFileSystem.validateProps props = .error e →
      WindowsFileSystem.construct props = ([], .error e) :=
  fun props e h => construct_of_validateProps_error props e h

/-- Witness for C9 at a concrete input: throughput capacity 7 fails the
throughput validator, and construction returns exactly that error with an
empty effect list. -/
theorem construct_fail_fast_no_effects_witness :
    WindowsFileSystem.construct
        { validSampleProps with
            windowsConfiguration :=
              { validSampleProps.windowsConfiguration with throughputCapacity := 7 } }
      = ([], .error "Throughput Capacity must be between 8 and 4096 GiB and a power of 2") :=
  construct_fail_fast_no_effects _ _ (by rfl)

/-- C1 (amended): the storage-capacity validator of the previous builder
revision accepts exactly the values `s` with `32 ≤ s ≤ 65536` — integrality
is not checked — and the current builder revision runs its validation phase
before any assembly, aborting with no effects on the first failure; the
current revision's validation phase contains no storage-capacity check at
all. -/
theorem validation_before_assembly_and_storage_range :
    (∀ s : ℚ, WindowsFileSystemPrev.validateStorageCapacity s = .ok ()
        ↔ (32 ≤ s ∧ s ≤ 65536))
      ∧ (∀ (props : WindowsFileSystemProps) (e : String),
          WindowsFileSystem.validateProps props = .error e →
          WindowsFileSystem.construct props = ([], .error e)) := by
  constructor
  · intro s
    unfold WindowsFileSystemPrev.validateStorageCapacity
    split
    · next hc =>
      simp only [reduceCtorEq, false_iff]
      simp only [Bool.or_eq_true, decide_eq_true_eq] at hc
      rintro ⟨h1, h2⟩
      rcases hc with hc | hc <;> linarith
    · next hc =>
      simp only [true_iff]
      simp only [Bool.or_eq_true, decide_eq_true_eq, not_or] at hc
      exact ⟨not_lt.mp hc.1, not_lt.mp hc.2⟩
  · exact fun props e h => construct_of_validateProps_error props e h

/-- C1 counterexample: (a) the storage validator accepts the non-integer
65/2 = 32.5, refuting the integrality part of the claim; (b) the current
builder revision's validation phase accepts a property record whose storage
capacity is 10 — below the claimed lower bound 32 — and construction
succeeds on it, refuting the part of the claim that every out-of-range
storage value makes construction fail with a storage-capacity violation. -/
theorem storage_capacity_claim_counterexample :
    WindowsFileSystemPrev.validateStorageCapacity (mkRat 65 2) = .ok ()
      ∧ ¬ (mkRat 65 2).den = 1
      ∧ ((32 : ℚ) ≤ mkRat 65 2 ∧ mkRat 65 2 ≤ 65536)
      ∧ WindowsFileSystem.validateProps
          { validSampleProps with storageCapacityGiB := 10 } = .ok ()
      ∧ (WindowsFileSystem.construct
          { validSampleProps with storageCapacityGiB := 10 }).2.isOk = true
      ∧ (10 : ℚ) < 32 :=
  ⟨rfl, by decide, by decide, rfl, rfl, by decide⟩

/-- Witness for C1 at concrete inputs: storage capacity 32 is accepted by the
previous revision's validator, and a throughput of 7 makes the current
revision's construction abort with the throughput error and no effects. -/
theorem validation_before_assembly_and_storage_range_witness :
    WindowsFileSystemPrev.validateStorageCapacity 32 = .ok ()
      ∧ WindowsFileSystem.construct
          { validSampleProps with
              windowsConfiguration :=
                { validSampleProps.windowsConfiguration with throughputCapacity := 7 } }
        = ([], .error "Throughput Capacity must be between 8 and 4096 GiB and a power of 2") :=
  ⟨(validation_before_assembly_and_storage_range.1 32).mpr (by norm_num),
   validation_before_assembly_and_storage_range.2 _ _ (by rfl)⟩

/-- C5: for every integral hour in `[0, 24]` and minute in `[0, 59]`,
`BackupStartTime` construction succeeds and `toTimestamp` yields the
fixed-width zero-padded `"HH:MM"` string: both components have exactly two
digits, the full string has length five, and each component reads back as the
respective input; in particular hour 5, minute 0 gives `"05:00"` and hour 23,
minute 59 gives `"23:59"`. -/
theorem backupStartTime_toTimestamp_canonical :
    (∀ h m : ℕ, h ≤ 24 → m ≤ 59 →
        BackupStartTime.mk? ⟨(h : ℚ), (m : ℚ)⟩
            = .ok ⟨getTwoDigitString h, getTwoDigitString m⟩
          ∧ BackupStartTime.toTimestamp ⟨getTwoDigitString h, getTwoDigitString m⟩
            = getTwoDigitString h ++ ":" ++ getTwoDigitString m
          ∧ (getTwoDigitString h).length = 2 ∧ (getTwoDigitString m).length = 2
          ∧ (BackupStartTime.toTimestamp ⟨getTwoDigitString h, getTwoDigitString m⟩).length = 5
          ∧ decimalValue (getTwoDigitString h) = h ∧ decimalValue (getTwoDigitString m) = m)
      ∧ (BackupStartTime.mk? ⟨5, 0⟩).map BackupStartTime.toTimestamp = .ok "05:00"
      ∧ (BackupStartTime.mk? ⟨23, 59⟩).map BackupStartTime.toTimestamp = .ok "23:59" := by
  refine ⟨?_, rfl, rfl⟩
  intro h m hh hm
  obtain ⟨hl2, hdv⟩ := getTwoDigitString_spec h (by omega)
  obtain ⟨ml2, mdv⟩ := getTwoDigitString_spec m (by omega)
  refine ⟨mk?_natCast_ok h m hh hm, rfl, hl2, ml2, ?_, hdv, mdv⟩
  show (getTwoDigitString h ++ ":" ++ getTwoDigitString m).length = 5
  rw [String.length_append, String.length_append, hl2, ml2]
  rfl

/-- Witness for C5 at the concrete input hour 23, minute 59. -/
theorem backupStartTime_toTimestamp_canonical_witness :
    BackupStartTime.mk? ⟨((23 : ℕ) : ℚ), ((59 : ℕ) : ℚ)⟩
        = .ok ⟨getTwoDigitString 23, getTwoDigitString 59⟩
      ∧ BackupStartTime.toTimestamp ⟨getTwoDigitString 23, getTwoDigitString 59⟩
        = getTwoDigitString 23 ++ ":" ++ getTwoDigitString 59
      ∧ (getTwoDigitString 23).length = 2 ∧ (getTwoDigitString 59).length = 2
      ∧ (BackupStartTime.toTimestamp ⟨getTwoDigitString 23, getTwoDigitString 59⟩).length = 5
      ∧ decimalValue (getTwoDigitString 23) = 23 ∧ decimalValue (getTwoDigitString 59) = 59 :=
  backupStartTime_toTimestamp_canonical.1 23 59 (by omega) (by omega)

/-- C4: for every weekday and integral hour in `[0, 24]`, minute in
`[0, 59]`, the maintenance-time value object is constructed successfully and
its timestamp operation returns `"D:HH:MM"`, where `D` is the unpadded
decimal of the 1-based weekday index (Monday = 1 … Sunday = 7) and the hour
and minute components are zero-padded two-digit numerals reading back as the
inputs; in particular (Sunday, 0, 0) gives `"7:00:00"`, (Saturday, 0, 0)
gives `"6:00:00"` and (Sunday, 24, 0) gives `"7:24:00"`. -/
theorem maintenanceTime_toTimestamp_canonical :
    (∀ (d : Weekday) (h m : ℕ), h ≤ 24 → m ≤ 59 →
        LustreMaintenanceTime.mk? ⟨d, (h : ℚ), (m : ℚ)⟩
            = .ok ⟨d, getTwoDigitString h, getTwoDigitString m⟩
          ∧ LustreMaintenanceTime.toTimestamp ⟨d, getTwoDigitString h, getTwoDigitString m⟩
            = d.dayValue ++ ":" ++ getTwoDigitString h ++ ":" ++ getTwoDigitString m
          ∧ d.dayValue = toString d.index
          ∧ (getTwoDigitString h).length = 2 ∧ (getTwoDigitString m).length = 2
          ∧ decimalValue (getTwoDigitString h) = h ∧ decimalValue (getTwoDigitString m) = m)
      ∧ (LustreMaintenanceTime.mk? ⟨.SUNDAY, 0, 0⟩).map LustreMaintenanceTime.toTimestamp
          = .ok "7:00:00"
      ∧ (LustreMaintenanceTime.mk? ⟨.SATURDAY, 0, 0⟩).map LustreMaintenanceTime.toTimestamp
          = .ok "6:00:00"
      ∧ (LustreMaintenanceTime.mk? ⟨.SUNDAY, 24, 0⟩).map LustreMaintenanceTime.toTimestamp
          = .ok "7:24:00" := by
  refine ⟨?_, rfl, rfl, rfl⟩
  intro d h m hh hm
  obtain ⟨hl2, hdv⟩ := getTwoDigitString_spec h (by omega)
  obtain ⟨ml2, mdv⟩ := getTwoDigitString_spec m (by omega)
  exact ⟨maintenance_mk?_natCast_ok d h m hh hm, rfl, by cases d <;> rfl, hl2, ml2, hdv, mdv⟩

/-- Witness for C4 at the concrete input (Sunday, 24, 0). -/
theorem maintenanceTime_toTimestamp_canonical_witness :
    LustreMaintenanceTime.mk? ⟨.SUNDAY, ((24 : ℕ) : ℚ), ((0 : ℕ) : ℚ)⟩
        = .ok ⟨.SUNDAY, getTwoDigitString 24, getTwoDigitString 0⟩
      ∧ LustreMaintenanceTime.toTimestamp ⟨.SUNDAY, getTwoDigitString 24, getTwoDigitString 0⟩
        = Weekday.dayValue .SUNDAY ++ ":" ++ getTwoDigitString 24 ++ ":" ++ getTwoDigitString 0
      ∧ Weekday.dayValue .SUNDAY = toString (Weekday.index .SUNDAY)
      ∧ (getTwoDigitString 24).length = 2 ∧ (getTwoDigitString 0).length = 2
      ∧ decimalValue (getTwoDigitString 24) = 24 ∧ decimalValue (getTwoDigitString 0) = 0 :=
  maintenanceTime_toTimestamp_canonical.1 .SUNDAY 24 0 (by omega) (by omega)

/-- C6 (amended): time-spec construction fails with the hour-range violation
whenever the hour is non-integral or outside `[0, 24]`; when the hour is
valid, it fails with the minute-range violation whenever the minute is
non-integral or outside `[0, 59]`; and it succeeds whenever both are valid
(the hour check runs first, so simultaneous violations report the hour). -/
theorem timeSpec_constructor_range_violations :
    ∀ h m : ℚ,
      ((¬ h.den = 1 ∨ h < 0 ∨ 24 < h) →
        BackupStartTime.mk? ⟨h, m⟩
          = .error "Maintenance time hour must be an integer between 0 and 24")
      ∧ ((h.den = 1 ∧ 0 ≤ h ∧ h ≤ 24) → (¬ m.den = 1 ∨ m < 0 ∨ 59 < m) →
        BackupStartTime.mk? ⟨h, m⟩
          = .error "Maintenance time minute must be an integer between 0 and 59")
      ∧ ((h.den = 1 ∧ 0 ≤ h ∧ h ≤ 24) → (m.den = 1 ∧ 0 ≤ m ∧ m ≤ 59) →
        (BackupStartTime.mk? ⟨h, m⟩).isOk = true) := by
  intro h m
  refine ⟨fun hb => mk?_eq_of_validate_error ⟨h, m⟩ _ (validate_hour_error h m hb),
          fun hg mb => mk?_eq_of_validate_error ⟨h, m⟩ _ (validate_minute_error h m hg mb),
          fun hg mg => ?_⟩
  rw [mk?_eq_of_validate_ok ⟨h, m⟩ (validate_both_ok h m hg mg)]
  rfl

/-- Witness for C6 at concrete inputs: hour 25 reports the hour violation,
minute 60 (with a valid hour) reports the minute violation, and hour 0 with
minute 0 constructs successfully. -/
theorem timeSpec_constructor_range_violations_witness :
    BackupStartTime.mk? ⟨25, 0⟩
        = .error "Maintenance time hour must be an integer between 0 and 24"
      ∧ BackupStartTime.mk? ⟨0, 60⟩
        = .error "Maintenance time minute must be an integer between 0 and 59"
      ∧ (BackupStartTime.mk? ⟨0, 0⟩).isOk = true :=
  ⟨(timeSpec_constructor_range_violations 25 0).1 (Or.inr (Or.inr (by norm_num))),
   (timeSpec_constructor_range_violations 0 60).2.1
     ⟨by decide, by norm_num, by norm_num⟩ (Or.inr (Or.inr (by norm_num))),
   (timeSpec_constructor_range_violations 0 0).2.2
     ⟨by decide, by norm_num, by norm_num⟩ ⟨by decide, by norm_num, by norm_num⟩⟩

/-- C6 counterexample: at hour 25 with minute 60 both arguments violate
their ranges, and the reported violation is the hour one — not a violation
naming the minute, as the claim's unconditional minute clause requires. -/
theorem timeSpec_minute_violation_counterexample :
    BackupStartTime.mk? ⟨25, 60⟩
        = .error "Maintenance time hour must be an integer between 0 and 24"
      ∧ "Maintenance time hour must be an integer between 0 and 24"
          ≠ "Maintenance time minute must be an integer between 0 and 59" :=
  ⟨rfl, by decide⟩

theorem log2IsIntegral_pow (k : ℕ) : log2IsIntegral ((2 : ℚ) ^ k) = true := by
  have hcast : ((2 : ℚ) ^ k) = ((2 ^ k : ℕ) : ℚ) := by push_cast; ring
  have hden : (((2 ^ k : ℕ) : ℚ)).den = 1 := Rat.den_natCast _
  have hnum : (((2 ^ k : ℕ) : ℚ)).num = ((2 ^ k : ℕ) : ℤ) := Rat.num_natCast _
  have hpos : (0 : ℤ) < ((2 ^ k : ℕ) : ℤ) := by
    exact_mod_cast pow_pos (by omega : (0 : ℕ) < 2) k
  have htoNat : (((2 ^ k : ℕ) : ℤ)).toNat = 2 ^ k := rfl
  rw [hcast]
  unfold log2IsIntegral
  rw [hden, hnum, htoNat]
  simp only [beq_self_eq_true, Bool.true_and]
  refine (Bool.or_eq_true _ _).mpr (Or.inl ?_)
  rw [Bool.and_eq_true]
  exact ⟨decide_eq_true hpos, (isPow2Nat_iff _).mpr ⟨k, rfl⟩⟩

theorem pow_of_log2IsIntegral {v : ℚ} (h8 : 8 ≤ v) (hL : log2IsIntegral v = true) :
    ∃ k : ℕ, v = 2 ^ k := by
  unfold log2IsIntegral at hL
  rcases (Bool.or_eq_true _ _).mp hL with hA | hB
  · simp only [Bool.and_eq_true, beq_iff_eq, decide_eq_true_eq] at hA
    obtain ⟨⟨hden, hpos⟩, hpow⟩ := hA
    obtain ⟨k, hk⟩ := (isPow2Nat_iff _).mp hpow
    refine ⟨k, ?_⟩
    have hv : v = (v.num : ℚ) := by
      conv_lhs => rw [← Rat.num_div_den v]
      rw [hden]
      simp
    have hnum : v.num = ((2 ^ k : ℕ) : ℤ) := by
      have := Int.toNat_of_nonneg (le_of_lt hpos)
      omega
    rw [hv, hnum]
    push_cast
    ring
  · simp only [Bool.and_eq_true, beq_iff_eq] at hB
    obtain ⟨hnum, -⟩ := hB
    have hdpos : (0 : ℚ) < (v.den : ℚ) := by
      exact_mod_cast v.den_pos
    have hden1 : (1 : ℚ) ≤ (v.den : ℚ) := by
      exact_mod_cast v.den_pos
    have hv : v = 1 / (v.den : ℚ) := by
      conv_lhs => rw [← Rat.num_div_den v]
      rw [hnum]
      norm_num
    have hle : v ≤ 1 := by
      rw [hv, div_le_one hdpos]
      exact hden1
    linarith

/-- C3: the throughput-capacity validator accepts a value exactly when it
lies between 8 and 4096 and is a power of two (its base-2 logarithm is
integral), and on every other value it raises the violation naming the
throughput capacity. -/
theorem validateThroughputCapacity_iff :
    ∀ v : ℚ,
      (WindowsFileSystem.validateThroughputCapacity v = .ok ()
        ↔ (8 ≤ v ∧ v ≤ 4096 ∧ ∃ k : ℕ, v = 2 ^ k))
      ∧ (WindowsFileSystem.validateThroughputCapacity v = .ok ()
          ∨ WindowsFileSystem.validateThroughputCapacity v
            = .error "Throughput Capacity must be between 8 and 4096 GiB and a power of 2") := by
  intro v
  constructor
  · constructor
    · intro hok
      unfold WindowsFileSystem.validateThroughputCapacity at hok
      by_cases hc : ((decide (v < 8) || decide (v > 4096)) || !(log2IsIntegral v)) = true
      · rw [if_pos hc] at hok
        exact absurd hok (by simp)
      · simp only [Bool.or_eq_true, decide_eq_true_eq, Bool.not_eq_true', not_or,
          Bool.not_eq_false] at hc
        obtain ⟨⟨h1, h2⟩, h3⟩ := hc
        have h8 : 8 ≤ v := not_lt.mp h1
        exact ⟨h8, not_lt.mp h2, pow_of_log2IsIntegral h8 h3⟩
    · rintro ⟨h8, h4096, k, rfl⟩
      unfold WindowsFileSystem.validateThroughputCapacity
      rw [if_neg]
      simp only [Bool.or_eq_true, decide_eq_true_eq, Bool.not_eq_true', not_or,
        Bool.not_eq_false]
      exact ⟨⟨not_lt.mpr h8, not_lt.mpr h4096⟩, log2IsIntegral_pow k⟩
  · unfold WindowsFileSystem.validateThroughputCapacity
    split
    · exact Or.inr rfl
    · exact Or.inl rfl

end AwsFsx
